import Mathlib

/-!
Verification of WinSAT_Viewer (src/WinSAT_Viewer.py) against its
natural-language specification.

The development shallowly embeds the Python source:

* Python runtime values that can appear in this program (the results of
  `json.loads`, the arguments of `decode_assessment_state`, the values of a
  score object) are modelled by the inductive type `PyVal`.
* `json.loads` is modelled by an executable JSON parser `json_loads`
  (fuel-based recursive descent over the character list, following the JSON
  grammar accepted by the CPython `json` module in strict mode).
* Plain functions of the source (`decode_assessment_state`,
  `resolve_powershell_path`, `run_powershell`, `_apply_scores`) become Lean
  functions of the same name.  Interactions with the operating system
  (filesystem existence checks, the environment, subprocess execution) are
  passed in as explicit oracle arguments.
* The Tkinter GUI controller (`WinSatGUI`) becomes an explicit state machine:
  `AppState` holds the observable widget state (status line, log pane,
  score labels, stored raw JSON, clipboard, shown message boxes), the busy
  flag of `_set_busy`, the list of in-flight background `run_powershell`
  invocations, and the pending one-shot startup timer
  (`self.after(200, self.refresh_scores)`).  `step` consumes one event:
  a button click (Tk delivers a click to a handler only when the button is
  enabled; `_set_busy` enables and disables all three buttons together with
  the busy flag), the startup timer firing, or the completion of an
  in-flight invocation together with the UI-thread callback that
  `self.after(0, ...)` marshals (`_handle_query_result`, or the `done`
  closure of `run_assessment`).  Each UI-thread callback runs atomically in
  the single-threaded Tk event loop and is therefore one step.  The
  logging a worker thread performs before calling `run_powershell`
  (`_clear_log` and the first `_log` lines) is folded into the dispatching
  step.  Modal message boxes are modelled as a list of shown notices.
-/

/-- Python runtime values as they occur in this program: `None`, booleans,
integers, floats (modelled as exact rationals; binary double rounding is not
modelled, no claim depends on it), strings, lists and string-keyed dicts. -/
inductive PyVal where
  | none
  | bool (b : Bool)
  | int (n : Int)
  | float (q : Rat)
  | str (s : String)
  | list (elems : List PyVal)
  | dict (entries : List (String × PyVal))

/-- The single-quote character, used by the Python repr of strings. -/
def squote : String := String.singleton (Char.ofNat 39)

/-- Opening curly brace character. -/
def lbrace : Char := Char.ofNat 123

/-- Closing curly brace character. -/
def rbrace : Char := Char.ofNat 125

/-- Digits of the fractional part of a nonnegative rational, most significant
first, at most `n` of them (used by the modelled float repr). -/
def fracDigitLoop : Rat → Nat → List Char
  | _, 0 => []
  | fr, n + 1 =>
    if fr = 0 then []
    else
      let x := fr * 10
      let d : Nat := x.floor.toNat
      Char.ofNat (48 + d) :: fracDigitLoop (x - (d : Rat)) n

/-- Modelled rendering of a Python float by `str`/`repr`: sign, integer part,
a dot, then the fractional digits (trailing zeros trimmed, a single 0 when
the value is integral).  CPython prints the shortest decimal that round-trips
through the binary double; for the exact decimal values produced by
`json_loads` the two agree, and no claim below depends on this rendering. -/
def floatRepr (q : Rat) : String :=
  let sign := if q < 0 then "-" else ""
  let a := |q|
  let ip : Nat := a.floor.toNat
  let fr : Rat := a - (ip : Rat)
  let digs := fracDigitLoop fr 17
  let digs := (digs.reverse.dropWhile (fun c => c == '0')).reverse
  let digs := if digs.isEmpty then ['0'] else digs
  sign ++ toString ip ++ "." ++ String.mk digs

mutual

/-- Python `repr` of a value (string escaping inside reprs is simplified to
plain quoting; no claim inspects the repr of a string containing quotes). -/
def pyRepr : PyVal → String
  | PyVal.none => "None"
  | PyVal.bool b => if b then "True" else "False"
  | PyVal.int n => toString n
  | PyVal.float q => floatRepr q
  | PyVal.str s => squote ++ s ++ squote
  | PyVal.list xs => "[" ++ pyReprElems xs ++ "]"
  | PyVal.dict kvs => String.singleton lbrace ++ pyReprEntries kvs ++ String.singleton rbrace

/-- Comma-separated reprs of list elements. -/
def pyReprElems : List PyVal → String
  | [] => ""
  | [x] => pyRepr x
  | x :: y :: xs => pyRepr x ++ ", " ++ pyReprElems (y :: xs)

/-- Comma-separated reprs of dict entries. -/
def pyReprEntries : List (String × PyVal) → String
  | [] => ""
  | [(k, v)] => squote ++ k ++ squote ++ ": " ++ pyRepr v
  | (k, v) :: e :: rest => squote ++ k ++ squote ++ ": " ++ pyRepr v ++ ", " ++ pyReprEntries (e :: rest)

end

/-- Python `str` of a value: the string itself for strings, `repr` otherwise. -/
def pyStr (v : PyVal) : String :=
  match v with
  | PyVal.str s => s
  | v => pyRepr v

/-- Python whitespace stripped by `int(...)` on strings and by `str.strip()`
(space, tab, newline, carriage return, vertical tab, form feed; further
unicode whitespace is not modelled, no claim uses it). -/
def isPySpace (c : Char) : Bool :=
  c == ' ' || c == '\t' || c == '\n' || c == '\r' || c == Char.ofNat 11 || c == Char.ofNat 12

/-- Python `str.strip()`. -/
def pyStrip (s : String) : String :=
  String.mk (((s.data.dropWhile isPySpace).reverse.dropWhile isPySpace).reverse)

/-- Digits of a decimal integer literal after its first digit, allowing a
single underscore between digits as Python `int(...)` does. -/
def digitGroup : List Char → Nat → Option Nat
  | [], acc => some acc
  | '_' :: c :: rest, acc =>
    if c.isDigit then digitGroup rest (acc * 10 + (c.toNat - 48)) else Option.none
  | c :: rest, acc =>
    if c.isDigit then digitGroup rest (acc * 10 + (c.toNat - 48)) else Option.none

/-- Python `int(s)` on a string: strip whitespace, optional sign, then a
nonempty group of decimal digits (single underscores allowed between digits);
anything else raises, modelled as `Option.none`. -/
def pyIntOfString (s : String) : Option Int :=
  let cs := ((s.data.dropWhile isPySpace).reverse.dropWhile isPySpace).reverse
  match cs with
  | [] => Option.none
  | c :: rest =>
    let signed : Bool × List Char :=
      if c = '-' then (true, rest)
      else if c = '+' then (false, rest)
      else (false, c :: rest)
    match signed.2 with
    | [] => Option.none
    | d :: ds =>
      if d.isDigit then
        match digitGroup ds (d.toNat - 48) with
        | some n => some (if signed.1 then -(n : Int) else (n : Int))
        | Option.none => Option.none
      else Option.none

/-- Truncation of a rational toward zero, the behaviour of Python
`int(<float>)`. -/
def ratTrunc (q : Rat) : Int := q.num.tdiv (q.den : Int)

/-- Python `int(v)` on a program value: succeeds on booleans, integers,
floats and decimal-integer strings; raises (modelled as `Option.none`) on
`None`, other strings, lists and dicts. -/
def pyInt : PyVal → Option Int
  | PyVal.none => Option.none
  | PyVal.bool b => some (if b then 1 else 0)
  | PyVal.int n => some n
  | PyVal.float q => some (ratTrunc q)
  | PyVal.str s => pyIntOfString s
  | PyVal.list _ => Option.none
  | PyVal.dict _ => Option.none

/-- `decode_assessment_state` (WinSAT_Viewer.py lines 92-108): try
`int(v)`; on failure return `str(v)`; otherwise label 1 and 0 specially and
every other integer as unknown. -/
def decode_assessment_state (v : PyVal) : String :=
  match pyInt v with
  | Option.none => pyStr v
  | some iv =>
    if iv = 1 then "1 (Valid/Completed)"
    else if iv = 0 then "0 (Not run/Unknown)"
    else toString iv ++ " (Unknown meaning)"

/-- JSON whitespace (the four characters the CPython json scanner skips). -/
def jsonWs (c : Char) : Bool :=
  c == ' ' || c == '\t' || c == '\n' || c == '\r'

/-- Skip JSON whitespace. -/
def skipWs (cs : List Char) : List Char := cs.dropWhile jsonWs

/-- Succeed with the rest of the input when `lit` is a prefix of it. -/
def matchLit : List Char → List Char → Option (List Char)
  | [], cs => some cs
  | _, [] => Option.none
  | l :: ls, c :: cs => if l = c then matchLit ls cs else Option.none

/-- Value of a hexadecimal digit. -/
def hexVal (c : Char) : Option Nat :=
  if c.isDigit then some (c.toNat - 48)
  else if 'a' ≤ c ∧ c ≤ 'f' then some (c.toNat - 97 + 10)
  else if 'A' ≤ c ∧ c ≤ 'F' then some (c.toNat - 65 + 10)
  else Option.none

/-- Body of a JSON string after the opening quote: returns the decoded
string and the input after the closing quote.  Escapes are decoded as by the
CPython json module in strict mode; raw control characters are rejected;
surrogate-pair combination of two adjacent unicode escapes is not modelled
(no claim involves it). -/
def pString : List Char → List String → Option (String × List Char)
  | [], _ => Option.none
  | '"' :: rest, acc => some (String.join acc.reverse, rest)
  | '\\' :: e :: rest, acc =>
    if e = '"' then pString rest ("\"" :: acc)
    else if e = '\\' then pString rest ("\\" :: acc)
    else if e = '/' then pString rest ("/" :: acc)
    else if e = 'b' then pString rest (String.singleton (Char.ofNat 8) :: acc)
    else if e = 'f' then pString rest (String.singleton (Char.ofNat 12) :: acc)
    else if e = 'n' then pString rest ("\n" :: acc)
    else if e = 'r' then pString rest ("\r" :: acc)
    else if e = 't' then pString rest ("\t" :: acc)
    else if e = 'u' then
      match rest with
      | h1 :: h2 :: h3 :: h4 :: rest2 =>
        match hexVal h1, hexVal h2, hexVal h3, hexVal h4 with
        | some a, some b, some c, some d =>
          pString rest2 (String.singleton (Char.ofNat (((a * 16 + b) * 16 + c) * 16 + d)) :: acc)
        | _, _, _, _ => Option.none
      | _ => Option.none
    else Option.none
  | c :: rest, acc =>
    if c.toNat < 32 then Option.none else pString rest (String.singleton c :: acc)

/-- Digit list to the natural number it denotes. -/
def digitsToNat (ds : List Char) : Nat :=
  ds.foldl (fun a c => a * 10 + (c.toNat - 48)) 0

/-- A JSON number starting at the input, mirroring the CPython NUMBER_RE
regular expression: optional minus, `0` or a nonzero-led digit run, an
optional fraction, an optional exponent.  Numbers with a fraction or an
exponent become floats (exact rationals here), the rest integers. -/
def pNumber (cs : List Char) : Option (PyVal × List Char) :=
  let sign : Bool × List Char :=
    match cs with
    | '-' :: rest => (true, rest)
    | _ => (false, cs)
  let ipart : Option (List Char × List Char) :=
    match sign.2 with
    | '0' :: rest => some (['0'], rest)
    | c :: rest =>
      if c.isDigit then
        let sp := (c :: rest).span Char.isDigit
        some (sp.1, sp.2)
      else Option.none
    | [] => Option.none
  match ipart with
  | Option.none => Option.none
  | some (ids, rest1) =>
    let frac : Option (List Char) × List Char :=
      match rest1 with
      | '.' :: d :: rest2 =>
        if d.isDigit then
          let sp := (d :: rest2).span Char.isDigit
          (some sp.1, sp.2)
        else (Option.none, rest1)
      | _ => (Option.none, rest1)
    let rest2 := frac.2
    let expo : Option (Bool × List Char) × List Char :=
      match rest2 with
      | e :: rest3 =>
        if e = 'e' ∨ e = 'E' then
          let es : Bool × List Char :=
            match rest3 with
            | '-' :: r => (true, r)
            | '+' :: r => (false, r)
            | _ => (false, rest3)
          match es.2 with
          | d :: r =>
            if d.isDigit then
              let sp := (d :: r).span Char.isDigit
              (some (es.1, sp.1), sp.2)
            else (Option.none, rest2)
          | [] => (Option.none, rest2)
        else (Option.none, rest2)
      | [] => (Option.none, rest2)
    let restF := expo.2
    match frac.1, expo.1 with
    | Option.none, Option.none =>
      let n : Int := (digitsToNat ids : Int)
      some (PyVal.int (if sign.1 then -n else n), rest1)
    | fds?, eds? =>
      let fds := fds?.getD []
      let mant : Int := (digitsToNat (ids ++ fds) : Int)
      let mant : Int := if sign.1 then -mant else mant
      let base : Rat := mkRat mant (10 ^ fds.length)
      let q : Rat :=
        match eds? with
        | Option.none => base
        | some (eneg, eds) =>
          if eneg then base / ((10 : Rat) ^ digitsToNat eds)
          else base * ((10 : Rat) ^ digitsToNat eds)
      some (PyVal.float q, restF)

/-- Insert a key/value pair into an object, replacing the value of an
existing key as a Python dict does on duplicate keys. -/
def objInsert : List (String × PyVal) → String → PyVal → List (String × PyVal)
  | [], k, v => [(k, v)]
  | (k0, v0) :: rest, k, v =>
    if k0 = k then (k0, v) :: rest else (k0, v0) :: objInsert rest k v

mutual

/-- One JSON value starting at the input (after skipping whitespace). -/
def pValue : Nat → List Char → Option (PyVal × List Char)
  | 0, _ => Option.none
  | fuel + 1, cs =>
    match skipWs cs with
    | [] => Option.none
    | c :: rest =>
      if c = '"' then
        match pString rest [] with
        | some (s, rest2) => some (PyVal.str s, rest2)
        | Option.none => Option.none
      else if c = '[' then pArray fuel rest
      else if c = lbrace then pObject fuel rest
      else
        match matchLit ['t', 'r', 'u', 'e'] (c :: rest) with
        | some rest2 => some (PyVal.bool true, rest2)
        | Option.none =>
          match matchLit ['f', 'a', 'l', 's', 'e'] (c :: rest) with
          | some rest2 => some (PyVal.bool false, rest2)
          | Option.none =>
            match matchLit ['n', 'u', 'l', 'l'] (c :: rest) with
            | some rest2 => some (PyVal.none, rest2)
            | Option.none => pNumber (c :: rest)

/-- Elements of a JSON array after the opening bracket. -/
def pArray : Nat → List Char → Option (PyVal × List Char)
  | 0, _ => Option.none
  | fuel + 1, cs =>
    match skipWs cs with
    | ']' :: rest => some (PyVal.list [], rest)
    | cs1 =>
      match pValue fuel cs1 with
      | Option.none => Option.none
      | some (v, rest) => pArrayTail fuel rest [v]

/-- Remaining elements of a JSON array, accumulated in reverse. -/
def pArrayTail : Nat → List Char → List PyVal → Option (PyVal × List Char)
  | 0, _, _ => Option.none
  | fuel + 1, cs, acc =>
    match skipWs cs with
    | ']' :: rest => some (PyVal.list acc.reverse, rest)
    | ',' :: rest =>
      match pValue fuel rest with
      | Option.none => Option.none
      | some (v, rest2) => pArrayTail fuel rest2 (v :: acc)
    | _ => Option.none

/-- Members of a JSON object after the opening brace. -/
def pObject : Nat → List Char → Option (PyVal × List Char)
  | 0, _ => Option.none
  | fuel + 1, cs =>
    match skipWs cs with
    | c :: rest =>
      if c = rbrace then some (PyVal.dict [], rest)
      else if c = '"' then
        match pString rest [] with
        | Option.none => Option.none
        | some (k, rest2) =>
          match skipWs rest2 with
          | ':' :: rest3 =>
            match pValue fuel rest3 with
            | Option.none => Option.none
            | some (v, rest4) => pObjectTail fuel rest4 (objInsert [] k v)
          | _ => Option.none
      else Option.none
    | [] => Option.none

/-- Remaining members of a JSON object. -/
def pObjectTail : Nat → List Char → List (String × PyVal) → Option (PyVal × List Char)
  | 0, _, _ => Option.none
  | fuel + 1, cs, acc =>
    match skipWs cs with
    | c :: rest =>
      if c = rbrace then some (PyVal.dict acc, rest)
      else if c = ',' then
        match skipWs rest with
        | '"' :: rest2 =>
          match pString rest2 [] with
          | Option.none => Option.none
          | some (k, rest3) =>
            match skipWs rest3 with
            | ':' :: rest4 =>
              match pValue fuel rest4 with
              | Option.none => Option.none
              | some (v, rest5) => pObjectTail fuel rest5 (objInsert acc k v)
            | _ => Option.none
        | _ => Option.none
      else Option.none
    | [] => Option.none

end

/-- `json.loads` as used at WinSAT_Viewer.py line 270: one JSON document,
with only trailing whitespace allowed after it; everything else raises a
decode error, modelled as `Option.none`.  (The nonstandard NaN/Infinity
literals CPython also accepts are not modelled; both sides classify such
input as a failed query in the claims below.) -/
def json_loads (s : String) : Option PyVal :=
  match pValue (2 * s.length + 2) s.data with
  | some (v, rest) => if (skipWs rest).isEmpty then some v else Option.none
  | Option.none => Option.none

/-- The first-element extraction of `_handle_query_result` (lines 271-272):
`if isinstance(obj, list) and obj: obj = obj[0]`. -/
def extractFirst : PyVal → PyVal
  | PyVal.list (x :: _) => x
  | v => v

/-- Is the value a dict (`isinstance(obj, dict)`)? -/
def isDictB : PyVal → Bool
  | PyVal.dict _ => true
  | _ => false

/-- The failure kinds of the result interpreter, named as in the spec:
empty output (lines 261-264) and parse errors (the `except` clause of
lines 278-280, reached by a `json.JSONDecodeError` from `json.loads` or the
explicit `ValueError` of line 274). -/
inductive QueryFailure where
  | emptyOutput
  | parseError (msg : String)
deriving DecidableEq

/-- Modelled text of a `json.JSONDecodeError`; CPython includes a position
(e.g. `Expecting value: line 1 column 1 (char 0)`), carried here as a fixed
string since every claim depends only on the failure kind. -/
def jsonDecodeErrorMsg : String := "Expecting value: line 1 column 1 (char 0)"

/-- Message of the explicit `ValueError` of line 274. -/
def notAnObjectMsg : String := "Unexpected JSON structure (not an object)."

/-- The result-interpreter portion of `_handle_query_result` (lines
261-276), as the contract `parse(rawText) -> ScoreRecord` of the spec:
reject empty output, decode as JSON, use the first element of a nonempty
list, and require an object. -/
def parse (out : String) : Except QueryFailure (List (String × PyVal)) :=
  if out = "" then Except.error QueryFailure.emptyOutput
  else
    match json_loads out with
    | Option.none => Except.error (QueryFailure.parseError jsonDecodeErrorMsg)
    | some v =>
      match extractFirst v with
      | PyVal.dict kvs => Except.ok kvs
      | _ => Except.error (QueryFailure.parseError notAnObjectMsg)

/-- Python `obj.get(key, None)` on a string-keyed dict. -/
def pyGet : List (String × PyVal) → String → Option PyVal
  | [], _ => Option.none
  | (k0, v0) :: rest, k => if k0 = k then some v0 else pyGet rest k

/-- The UI-label/JSON-key table of `_apply_scores` (lines 212-221), in
source order. -/
def scoreMapping : List (String × String) :=
  [("WinSPRLevel (Base Score)", "WinSPRLevel"),
   ("CPUScore", "CPUScore"),
   ("MemoryScore", "MemoryScore"),
   ("DiskScore", "DiskScore"),
   ("GraphicsScore", "GraphicsScore"),
   ("D3DScore", "D3DScore"),
   ("WinSATAssessmentState", "WinSATAssessmentState"),
   ("TimeTaken", "TimeTaken")]

/-- The per-field body of the `_apply_scores` loop (lines 222-230):
`obj.get(key, None)`, the placeholder for `None` (a value that is absent or
is JSON null), the decoded label for the assessment-state key, `str(val)`
otherwise. -/
def renderField (obj : List (String × PyVal)) (key : String) : String :=
  match pyGet obj key with
  | Option.none => "-"
  | some v =>
    match v with
    | PyVal.none => "-"
    | v =>
      if key = "WinSATAssessmentState" then decode_assessment_state v
      else pyStr v

/-- `_apply_scores` (lines 211-230): the label/value pairs the score grid
shows after applying an object. -/
def apply_scores (obj : List (String × PyVal)) : List (String × String) :=
  scoreMapping.map (fun p => (p.1, renderField obj p.2))

/-- Lookup of the value shown for a UI label. -/
def lookupStr : List (String × String) → String → Option String
  | [], _ => Option.none
  | (k0, v0) :: rest, k => if k0 = k then some v0 else lookupStr rest k

/-- The outcome of one `subprocess.run` call, as decided by the operating
system: normal completion with an exit code and the two captured streams,
`FileNotFoundError`, or `subprocess.TimeoutExpired`. -/
inductive SubprocessOutcome where
  | completed (returncode : Int) (stdout stderr : String)
  | fileNotFound
  | timedOut

/-- `run_powershell` (lines 34-63).  `attempts n` is what the OS would do on
the (n+1)-th `subprocess.run` call of this invocation; the source calls
`subprocess.run` exactly once, so only `attempts 0` is consulted (claim C7
states this as independence from the rest of the oracle).  On completion the
real exit code and the two streams stripped of surrounding whitespace are
returned; `FileNotFoundError` yields the sentinel 127 and
`subprocess.TimeoutExpired` the sentinel 124, each with empty streams. -/
def run_powershell (attempts : Nat → SubprocessOutcome) (ps_exe : String)
    (timeout_sec : Int) : Int × String × String :=
  match attempts 0 with
  | SubprocessOutcome.completed rc out err => (rc, pyStrip out, pyStrip err)
  | SubprocessOutcome.fileNotFound =>
    (127, "", "PowerShell executable not found at: " ++ ps_exe)
  | SubprocessOutcome.timedOut =>
    (124, "", "PowerShell timed out after " ++ toString timeout_sec ++ " seconds.")

/-- `os.path.join` for two Windows path components: no separator is added
after a component that already ends with a separator or with the colon of a
bare drive. -/
def winJoin1 (a b : String) : String :=
  if a = "" then b
  else if a.endsWith "\\" ∨ a.endsWith "/" ∨ a.endsWith ":" then a ++ b
  else a ++ "\\" ++ b

/-- `os.path.join(a, p1, p2, ...)` on Windows for relative tail components. -/
def winJoin (a : String) (parts : List String) : String :=
  parts.foldl winJoin1 a

/-- The system root used by `resolve_powershell_path` (line 17):
`os.environ.get("SystemRoot", r"C:\Windows")`. -/
def systemRootOf (systemRootEnv : Option String) : String :=
  systemRootEnv.getD "C:\\Windows"

/-- The standard path of line 20. -/
def ps_system32 (systemRootEnv : Option String) : String :=
  winJoin (systemRootOf systemRootEnv)
    ["System32", "WindowsPowerShell", "v1.0", "powershell.exe"]

/-- The Sysnative path of line 23. -/
def ps_sysnative (systemRootEnv : Option String) : String :=
  winJoin (systemRootOf systemRootEnv)
    ["Sysnative", "WindowsPowerShell", "v1.0", "powershell.exe"]

/-- `resolve_powershell_path` (lines 12-31).  `systemRootEnv` is the value
of the SystemRoot environment variable, `pathExists` the filesystem oracle
behind `os.path.exists`. -/
def resolve_powershell_path (systemRootEnv : Option String)
    (pathExists : String → Bool) : String :=
  if pathExists (ps_system32 systemRootEnv) then ps_system32 systemRootEnv
  else if pathExists (ps_sysnative systemRootEnv) then ps_sysnative systemRootEnv
  else "powershell"

/-- A background invocation kind: the Win32_WinSAT query (dispatched by
`refresh_scores` or `_refresh_after_assessment`) or the `winsat formal`
assessment (dispatched by `run_assessment`). -/
inductive Job where
  | query
  | assessment
deriving DecidableEq

/-- The observable state of `WinSatGUI`.  `busy` is the flag last passed to
`_set_busy`; it drives the enabled/disabled state of all three buttons and
the cursor together, so those widgets are not duplicated here.  `inflight`
lists the background `run_powershell` invocations currently running.
`startupPending` records whether the one-shot
`self.after(200, self.refresh_scores)` of `__init__` has yet to fire. -/
structure AppState where
  busy : Bool
  status : String
  rawJson : Option String
  logLines : List String
  fields : List (String × String)
  clipboard : Option String
  notices : List String
  inflight : List Job
  startupPending : Bool
deriving DecidableEq

/-- `_set_busy` (lines 186-198): the busy flag, the status line (an empty
message selects the default text, as the Python `or` does), and with it the
button states. -/
def set_busy (s : AppState) (b : Bool) (msg : String) : AppState :=
  if b then { s with busy := true, status := if msg = "" then "Working…" else msg }
  else { s with busy := false, status := if msg = "" then "Ready." else msg }

/-- `_log` (lines 200-204): append one line to the log pane. -/
def logLine (s : AppState) (m : String) : AppState :=
  { s with logLines := s.logLines ++ [m] }

/-- `_clear_log` (lines 206-209). -/
def clearLog (s : AppState) : AppState :=
  { s with logLines := [] }

/-- A `messagebox.showinfo`/`showerror` call, modelled as a shown notice
(most recent first). -/
def notify (s : AppState) (m : String) : AppState :=
  { s with notices := m :: s.notices }

/-- `copy_json` (lines 232-238): a notice when no raw JSON is held
(`if not self.raw_json` is also true for an empty string), otherwise
replace the clipboard contents and set the status line. -/
def copy_json (s : AppState) : AppState :=
  match s.rawJson with
  | Option.none => notify s "No JSON available yet. Click Refresh first."
  | some t =>
    if t = "" then notify s "No JSON available yet. Click Refresh first."
    else { s with clipboard := some t, status := "JSON copied to clipboard." }

/-- `refresh_scores` (lines 240-248): set busy, dispatch the query worker
(whose pre-invocation `_clear_log` and first `_log` line are folded into
this step). -/
def refresh_scores (s : AppState) : AppState :=
  let s := set_busy s true "Querying Win32_WinSAT…"
  let s := clearLog s
  let s := logLine s "Querying Win32_WinSAT via PowerShell…"
  { s with inflight := s.inflight ++ [Job.query] }

/-- `run_assessment` dispatch (lines 284-289 and 318-319): set busy,
dispatch the assessment worker (its pre-invocation logging folded in). -/
def run_assessment (s : AppState) : AppState :=
  let s := set_busy s true "Running WinSAT formal…"
  let s := clearLog s
  let s := logLine s "Running: winsat formal …"
  let s := logLine s "Note: this can take a while and may require Administrator privileges.\n"
  { s with inflight := s.inflight ++ [Job.assessment] }

/-- The `try` body of `_handle_query_result` (lines 251-280), without the
`finally`. -/
def hqr_try (s : AppState) (rc : Int) (out err : String) : AppState :=
  if rc ≠ 0 then
    let s := logLine s ("[ERROR] PowerShell exit code: " ++ toString rc)
    let s := if err ≠ "" then logLine s err else s
    let s := if out ≠ "" then logLine s out else s
    notify s "Failed to query Win32_WinSAT.\nSee log for details."
  else if out = "" then
    notify (logLine s "[ERROR] Empty output.") "PowerShell returned no output."
  else
    let s := { s with rawJson := some out }
    let s := logLine (logLine s "Raw JSON:") out
    match json_loads out with
    | Option.none =>
      notify (logLine s ("[ERROR] " ++ jsonDecodeErrorMsg))
        ("Could not parse/display results:\n" ++ jsonDecodeErrorMsg)
    | some v =>
      match extractFirst v with
      | PyVal.dict kvs =>
        { s with fields := apply_scores kvs, status := "WinSAT scores updated." }
      | _ =>
        notify (logLine s ("[ERROR] " ++ notAnObjectMsg))
          ("Could not parse/display results:\n" ++ notAnObjectMsg)

/-- `_handle_query_result` (lines 250-282): the `try` body, then the
`finally: self._set_busy(False)` that runs on every path (note that on the
success path it overwrites the just-set status line with the default). -/
def handle_query_result (s : AppState) (rc : Int) (out err : String) : AppState :=
  set_busy (hqr_try s rc out err) false ""

/-- The `done` closure of `run_assessment` (lines 291-316): on a nonzero
exit code log, notify and return to ready; on a zero exit code log the
assessment output, stay busy and dispatch the chained re-query
(`_refresh_after_assessment`, lines 321-323, whose completion is handled by
`_handle_query_result` like any query). -/
def handle_assessment_done (s : AppState) (rc : Int) (out err : String) : AppState :=
  if rc ≠ 0 then
    let s := logLine s ("[ERROR] WinSAT exit code: " ++ toString rc)
    let s := if err ≠ "" then logLine s err else s
    let s := if out ≠ "" then logLine s out else s
    let s := notify s "WinSAT assessment failed.\nTry running this program from an elevated (Admin) terminal.\nSee log for details."
    set_busy s false "Ready."
  else
    let s := if out ≠ "" then logLine (logLine s "WinSAT output:") out else s
    let s := if err ≠ "" then logLine (logLine s "WinSAT stderr:") err else s
    let s := logLine s "\nRe-querying Win32_WinSAT…\n"
    let s := set_busy s true "Re-querying Win32_WinSAT…"
    { s with inflight := s.inflight ++ [Job.query] }

/-- Remove the first occurrence of a finished job from the in-flight list. -/
def eraseFirst : List Job → Job → List Job
  | [], _ => []
  | x :: xs, j => if x = j then xs else x :: eraseFirst xs j

/-- Mark one in-flight invocation of kind `j` as finished. -/
def finishJob (s : AppState) (j : Job) : AppState :=
  { s with inflight := eraseFirst s.inflight j }

/-- The events the controller reacts to.  Clicks are user actions on the
three buttons; Tk invokes a button command only while the button is enabled,
i.e. only when not busy.  `startupTimer` is the one-shot
`after(200, self.refresh_scores)` firing; it calls `refresh_scores`
directly, with no enabled-button guard.  `queryDone`/`assessDone` carry the
`(returncode, stdout, stderr)` triple that `run_powershell` returned for an
invocation of that kind, and perform the UI-thread callback that
`self.after(0, ...)` marshals; they apply only when such an invocation is
actually in flight. -/
inductive Ev where
  | clickRefresh
  | clickRun
  | clickCopy
  | startupTimer
  | queryDone (rc : Int) (out err : String)
  | assessDone (rc : Int) (out err : String)

/-- One controller step. -/
def step (s : AppState) (e : Ev) : AppState :=
  match e with
  | Ev.clickRefresh => if s.busy then s else refresh_scores s
  | Ev.clickRun => if s.busy then s else run_assessment s
  | Ev.clickCopy => if s.busy then s else copy_json s
  | Ev.startupTimer =>
    if s.startupPending then refresh_scores { s with startupPending := false } else s
  | Ev.queryDone rc out err =>
    if Job.query ∈ s.inflight then handle_query_result (finishJob s Job.query) rc out err
    else s
  | Ev.assessDone rc out err =>
    if Job.assessment ∈ s.inflight then
      handle_assessment_done (finishJob s Job.assessment) rc out err
    else s

/-- The state `__init__` (lines 112-123) leaves behind: all score labels at
the placeholder, `_set_busy(False)` applied, no raw JSON, and the startup
refresh scheduled. -/
def initState : AppState :=
  { busy := false
    status := "Ready."
    rawJson := Option.none
    logLines := []
    fields := scoreMapping.map (fun p => (p.1, "-"))
    clipboard := Option.none
    notices := []
    inflight := []
    startupPending := true }

/-- The state after the controller processes a sequence of events from
startup. -/
def runApp (evs : List Ev) : AppState :=
  evs.foldl step initState

/-- A suffix test on strings, used to formalise a label "ending in" a
phrase. -/
def strEndsWith (s suffix : String) : Bool :=
  suffix.data.isSuffixOf s.data

/-- `json.loads` rejects empty input. -/
theorem json_loads_empty : json_loads "" = Option.none := rfl

/-- A successfully decoded text is not the empty string. -/
theorem json_loads_ne_empty {s : String} {v : PyVal} (h : json_loads s = some v) :
    s ≠ "" := by
  intro he
  rw [he, json_loads_empty] at h
  exact Option.noConfusion h

/-- Claim C1 (amended): decoding the assessment-state field.  If the value
converts to integer 1 the label is exactly "1 (Valid/Completed)" (it
contains, but does not end in, "Valid/Completed"); converting to 0 gives
exactly "0 (Not run/Unknown)"; any other integer conversion gives the
converted value followed by " (Unknown meaning)"; a value `int(...)`
rejects passes through as its literal string form. -/
theorem c1_state_decoding (v : PyVal) :
    (pyInt v = some 1 → decode_assessment_state v = "1 (Valid/Completed)") ∧
    (pyInt v = some 0 → decode_assessment_state v = "0 (Not run/Unknown)") ∧
    (∀ n : Int, pyInt v = some n → n ≠ 1 → n ≠ 0 →
      decode_assessment_state v = toString n ++ " (Unknown meaning)") ∧
    (pyInt v = Option.none → decode_assessment_state v = pyStr v) := by
  refine ⟨?_, ?_, ?_, ?_⟩
  · intro h; simp [decode_assessment_state, h]
  · intro h; simp [decode_assessment_state, h]
  · intro n h h1 h0; simp [decode_assessment_state, h, h1, h0]
  · intro h; simp [decode_assessment_state, h]

/-- Claim C1, counterexample to the claim as stated: for input 1 the
decoder yields "1 (Valid/Completed)", which does not end in
"Valid/Completed" (it ends in the closing parenthesis). -/
theorem c1_counterexample :
    decode_assessment_state (PyVal.int 1) = "1 (Valid/Completed)" ∧
    strEndsWith (decode_assessment_state (PyVal.int 1)) "Valid/Completed" = false := by
  exact ⟨rfl, by decide⟩

/-- Claim C1, witness: a non-integer input passes through unchanged. -/
theorem c1_witness : decode_assessment_state (PyVal.str "abc") = "abc" :=
  (c1_state_decoding (PyVal.str "abc")).2.2.2 rfl

/-- Claim C7: the process invoker consults the outcome of exactly one
`subprocess.run` attempt (the result is independent of every later entry of
the oracle); a missing executable yields the sentinel 127 with empty
streams and a message naming the resolved path; a timeout yields the
sentinel 124 with empty streams and a message stating the timeout; a
completed run passes the real exit code through (no synthesized status)
with both streams stripped. -/
theorem c7_invoker (attempts attempts2 : Nat → SubprocessOutcome)
    (ps_exe : String) (timeout_sec : Int) :
    (attempts 0 = attempts2 0 →
      run_powershell attempts ps_exe timeout_sec =
        run_powershell attempts2 ps_exe timeout_sec) ∧
    (attempts 0 = SubprocessOutcome.fileNotFound →
      run_powershell attempts ps_exe timeout_sec =
        (127, "", "PowerShell executable not found at: " ++ ps_exe)) ∧
    (attempts 0 = SubprocessOutcome.timedOut →
      run_powershell attempts ps_exe timeout_sec =
        (124, "", "PowerShell timed out after " ++ toString timeout_sec ++ " seconds.")) ∧
    (∀ rc out err, attempts 0 = SubprocessOutcome.completed rc out err →
      run_powershell attempts ps_exe timeout_sec = (rc, pyStrip out, pyStrip err)) := by
  refine ⟨?_, ?_, ?_, ?_⟩
  · intro h; unfold run_powershell; rw [h]
  · intro h; unfold run_powershell; rw [h]
  · intro h; unfold run_powershell; rw [h]
  · intro rc out err h; unfold run_powershell; rw [h]

/-- Claim C7, witness: a concrete missing-executable invocation. -/
theorem c7_witness :
    run_powershell (fun _ => SubprocessOutcome.fileNotFound)
      "C:\\nope\\powershell.exe" 30 =
      (127, "", "PowerShell executable not found at: C:\\nope\\powershell.exe") :=
  (c7_invoker (fun _ => SubprocessOutcome.fileNotFound)
    (fun _ => SubprocessOutcome.fileNotFound) "C:\\nope\\powershell.exe" 30).2.1 rfl

/-- Claim C9: the interpreter resolver always returns one of the three
candidate strings, in the documented precedence order, and an unset
system-root variable behaves exactly as the hardcoded default root. -/
theorem c9_resolver (env : Option String) (pathExists : String → Bool) :
    (pathExists (ps_system32 env) = true →
      resolve_powershell_path env pathExists = ps_system32 env) ∧
    (pathExists (ps_system32 env) = false → pathExists (ps_sysnative env) = true →
      resolve_powershell_path env pathExists = ps_sysnative env) ∧
    (pathExists (ps_system32 env) = false → pathExists (ps_sysnative env) = false →
      resolve_powershell_path env pathExists = "powershell") ∧
    (resolve_powershell_path Option.none pathExists =
      resolve_powershell_path (some "C:\\Windows") pathExists) ∧
    (resolve_powershell_path env pathExists = ps_system32 env ∨
      resolve_powershell_path env pathExists = ps_sysnative env ∨
      resolve_powershell_path env pathExists = "powershell") := by
  refine ⟨?_, ?_, ?_, rfl, ?_⟩
  · intro h; simp [resolve_powershell_path, h]
  · intro h1 h2; simp [resolve_powershell_path, h1, h2]
  · intro h1 h2; simp [resolve_powershell_path, h1, h2]
  · unfold resolve_powershell_path
    rcases hx : pathExists (ps_system32 env) with _ | _
    · rcases hy : pathExists (ps_sysnative env) with _ | _
      · simp
      · simp
    · simp

/-- Claim C9, witness: with no filesystem match the bare command name is
returned. -/
theorem c9_witness :
    resolve_powershell_path Option.none (fun _ => false) = "powershell" :=
  (c9_resolver Option.none (fun _ => false)).2.2.1 rfl rfl

/-- Claim C4: the result interpreter fails exactly when the output is
empty (as EmptyOutput), does not decode as JSON, or decodes to something
that is not an object after first-element extraction (each as ParseError);
on the concrete inputs of the spec it fails as stated; it succeeds exactly
when extraction yields an object; and `_handle_query_result` leaves the
controller at Ready (busy cleared) on every input whatsoever. -/
theorem c4_interpreter_failures :
    parse "" = Except.error QueryFailure.emptyOutput ∧
    parse "not json" = Except.error (QueryFailure.parseError jsonDecodeErrorMsg) ∧
    parse "[]" = Except.error (QueryFailure.parseError notAnObjectMsg) ∧
    parse "42" = Except.error (QueryFailure.parseError notAnObjectMsg) ∧
    (∀ out : String, out ≠ "" → json_loads out = Option.none →
      parse out = Except.error (QueryFailure.parseError jsonDecodeErrorMsg)) ∧
    (∀ (out : String) (v : PyVal), json_loads out = some v →
      isDictB (extractFirst v) = false →
      parse out = Except.error (QueryFailure.parseError notAnObjectMsg)) ∧
    (∀ (out : String) (v : PyVal) (kvs : List (String × PyVal)),
      json_loads out = some v → extractFirst v = PyVal.dict kvs →
      parse out = Except.ok kvs) ∧
    (∀ (s : AppState) (rc : Int) (out err : String),
      (handle_query_result s rc out err).busy = false) := by
  refine ⟨rfl, rfl, rfl, rfl, ?_, ?_, ?_, ?_⟩
  · intro out h1 h2
    unfold parse
    rw [if_neg h1, h2]
  · intro out v h1 h2
    have hne : out ≠ "" := json_loads_ne_empty h1
    unfold parse
    rw [if_neg hne, h1]
    rcases hv : extractFirst v with _ | _ | _ | _ | _ | _ | kvs <;>
      simp [hv, isDictB] at h2 ⊢
  · intro out v kvs h1 h2
    have hne : out ≠ "" := json_loads_ne_empty h1
    unfold parse
    rw [if_neg hne, h1]
    dsimp only
    rw [h2]
  · intro s rc out err
    rfl

/-- Claim C4, witness: a concrete failing and a concrete succeeding
input exercising the quantified conjuncts. -/
theorem c4_witness :
    parse "fake" = Except.error (QueryFailure.parseError jsonDecodeErrorMsg) ∧
    parse "\x7b\x7d" = Except.ok [] := by
  constructor
  · exact c4_interpreter_failures.2.2.2.2.1 "fake" (by decide) rfl
  · exact c4_interpreter_failures.2.2.2.2.2.2.1 "\x7b\x7d" (PyVal.dict []) [] rfl rfl

/-- Claim C5: for input text decoding to a nonempty sequence of objects,
parsing agrees with parsing any text that decodes to just the first
element. -/
theorem c5_first_element (s t : String) (v : PyVal) (rest : List PyVal)
    (hs : json_loads s = some (PyVal.list (v :: rest)))
    (hall : (v :: rest).all isDictB = true)
    (ht : json_loads t = some v) :
    parse s = parse t := by
  have hs0 : s ≠ "" := json_loads_ne_empty hs
  have ht0 : t ≠ "" := json_loads_ne_empty ht
  obtain ⟨kvs, hv⟩ : ∃ kvs, v = PyVal.dict kvs := by
    have hd : isDictB v = true := by
      simp [List.all] at hall
      exact hall.1
    cases v <;> simp [isDictB] at hd <;> exact ⟨_, rfl⟩
  subst hv
  unfold parse
  rw [if_neg hs0, if_neg ht0, hs, ht]
  rfl

/-- Claim C5, witness: the singleton list of an empty object parses as the
object itself. -/
theorem c5_witness : parse "[\x7b\x7d]" = parse "\x7b\x7d" :=
  c5_first_element "[\x7b\x7d]" "\x7b\x7d" (PyVal.dict []) [] rfl rfl rfl

/-- The shown value of a label is the rendered field of its JSON key, for
every entry of the label/key table. -/
theorem lookup_apply_scores (obj : List (String × PyVal)) (lbl key : String)
    (hmem : (lbl, key) ∈ scoreMapping) :
    lookupStr (apply_scores obj) lbl = some (renderField obj key) := by
  simp only [scoreMapping, List.mem_cons, List.not_mem_nil, or_false,
    Prod.mk.injEq] at hmem
  rcases hmem with ⟨h1, h2⟩ | ⟨h1, h2⟩ | ⟨h1, h2⟩ | ⟨h1, h2⟩ | ⟨h1, h2⟩ |
    ⟨h1, h2⟩ | ⟨h1, h2⟩ | ⟨h1, h2⟩ <;> subst h1 <;> subst h2 <;> rfl

/-- Claim C6 (amended): a recognized field present with a non-null value is
displayed as the string form of that value, except the assessment-state
field, which is displayed as its decoded label; a field that is absent, or
present with a null value, is displayed as the placeholder "-". -/
theorem c6_field_display (obj : List (String × PyVal)) (lbl key : String)
    (hmem : (lbl, key) ∈ scoreMapping) :
    ((pyGet obj key = Option.none ∨ pyGet obj key = some PyVal.none) →
      lookupStr (apply_scores obj) lbl = some "-") ∧
    (∀ v : PyVal, pyGet obj key = some v → v ≠ PyVal.none →
      key ≠ "WinSATAssessmentState" →
      lookupStr (apply_scores obj) lbl = some (pyStr v)) ∧
    (∀ v : PyVal, pyGet obj key = some v → v ≠ PyVal.none →
      key = "WinSATAssessmentState" →
      lookupStr (apply_scores obj) lbl = some (decode_assessment_state v)) := by
  refine ⟨?_, ?_, ?_⟩
  · rintro (h | h) <;>
      rw [lookup_apply_scores obj lbl key hmem] <;>
      unfold renderField <;> rw [h]
  · intro v h hv hk
    rw [lookup_apply_scores obj lbl key hmem]
    unfold renderField
    rw [h]
    cases v <;> simp_all <;> rw [if_neg hk]
  · intro v h hv hk
    rw [lookup_apply_scores obj lbl key hmem]
    unfold renderField
    rw [h]
    cases v <;> simp_all <;> rw [if_pos hk]

/-- Claim C6, counterexample to the claim as stated: a recognized field
present with JSON null is displayed as the placeholder, not as the string
form "None" of its value; and the assessment-state field present with value
1 is displayed as its decoded label, not as the string form "1". -/
theorem c6_counterexample :
    lookupStr (apply_scores [("CPUScore", PyVal.none)]) "CPUScore" = some "-" ∧
    pyStr PyVal.none = "None" ∧
    lookupStr (apply_scores [("WinSATAssessmentState", PyVal.int 1)])
      "WinSATAssessmentState" = some "1 (Valid/Completed)" ∧
    pyStr (PyVal.int 1) = "1" ∧
    ("-" : String) ≠ "None" ∧ ("1 (Valid/Completed)" : String) ≠ "1" :=
  ⟨rfl, rfl, rfl, rfl, by decide, by decide⟩

/-- Claim C6, witness: a present zero-valued field shows "0", an absent
field shows "-", so absence and zero are distinguishable. -/
theorem c6_witness :
    lookupStr (apply_scores [("CPUScore", PyVal.int 0)]) "CPUScore" = some "0" ∧
    lookupStr (apply_scores [("CPUScore", PyVal.int 0)]) "DiskScore" = some "-" := by
  constructor
  · exact (c6_field_display [("CPUScore", PyVal.int 0)] "CPUScore" "CPUScore"
      (by decide)).2.1 (PyVal.int 0) rfl (by intro h; exact PyVal.noConfusion h)
      (by decide)
  · exact (c6_field_display [("CPUScore", PyVal.int 0)] "DiskScore" "DiskScore"
      (by decide)).1 (Or.inl rfl)

theorem set_busy_busy (s : AppState) (b : Bool) (msg : String) :
    (set_busy s b msg).busy = b := by
  cases b <;> simp [set_busy] <;> split <;> rfl

theorem set_busy_inflight (s : AppState) (b : Bool) (msg : String) :
    (set_busy s b msg).inflight = s.inflight := by
  cases b <;> simp [set_busy] <;> split <;> rfl

theorem set_busy_startupPending (s : AppState) (b : Bool) (msg : String) :
    (set_busy s b msg).startupPending = s.startupPending := by
  cases b <;> simp [set_busy] <;> split <;> rfl

theorem hqr_try_inflight (s : AppState) (rc : Int) (out err : String) :
    (hqr_try s rc out err).inflight = s.inflight := by
  unfold hqr_try
  try dsimp only
  repeat' split
  all_goals rfl

theorem hqr_try_startupPending (s : AppState) (rc : Int) (out err : String) :
    (hqr_try s rc out err).startupPending = s.startupPending := by
  unfold hqr_try
  try dsimp only
  repeat' split
  all_goals rfl

theorem handle_query_result_busy (s : AppState) (rc : Int) (out err : String) :
    (handle_query_result s rc out err).busy = false := rfl

theorem handle_query_result_inflight (s : AppState) (rc : Int) (out err : String) :
    (handle_query_result s rc out err).inflight = s.inflight := by
  unfold handle_query_result
  rw [set_busy_inflight, hqr_try_inflight]

theorem handle_query_result_startupPending (s : AppState) (rc : Int) (out err : String) :
    (handle_query_result s rc out err).startupPending = s.startupPending := by
  unfold handle_query_result
  rw [set_busy_startupPending, hqr_try_startupPending]

theorem had_fail_busy (s : AppState) (rc : Int) (out err : String) (h : rc ≠ 0) :
    (handle_assessment_done s rc out err).busy = false := by
  unfold handle_assessment_done
  rw [if_pos h]
  try dsimp only
  repeat' split
  all_goals rfl

theorem had_fail_inflight (s : AppState) (rc : Int) (out err : String) (h : rc ≠ 0) :
    (handle_assessment_done s rc out err).inflight = s.inflight := by
  unfold handle_assessment_done
  rw [if_pos h]
  try dsimp only
  repeat' split
  all_goals rfl

theorem had_fail_startupPending (s : AppState) (rc : Int) (out err : String) (h : rc ≠ 0) :
    (handle_assessment_done s rc out err).startupPending = s.startupPending := by
  unfold handle_assessment_done
  rw [if_pos h]
  try dsimp only
  repeat' split
  all_goals rfl

theorem had_ok_busy (s : AppState) (out err : String) :
    (handle_assessment_done s 0 out err).busy = true := by
  unfold handle_assessment_done
  rw [if_neg (by omega : ¬ (0 : Int) ≠ 0)]
  try dsimp only
  repeat' split
  all_goals rfl

theorem had_ok_inflight (s : AppState) (out err : String) :
    (handle_assessment_done s 0 out err).inflight = s.inflight ++ [Job.query] := by
  unfold handle_assessment_done
  rw [if_neg (by omega : ¬ (0 : Int) ≠ 0)]
  try dsimp only
  repeat' split
  all_goals rfl

theorem had_ok_startupPending (s : AppState) (out err : String) :
    (handle_assessment_done s 0 out err).startupPending = s.startupPending := by
  unfold handle_assessment_done
  rw [if_neg (by omega : ¬ (0 : Int) ≠ 0)]
  try dsimp only
  repeat' split
  all_goals rfl

theorem copy_json_busy (s : AppState) : (copy_json s).busy = s.busy := by
  unfold copy_json notify
  try dsimp only
  repeat' split
  all_goals rfl

theorem copy_json_inflight (s : AppState) : (copy_json s).inflight = s.inflight := by
  unfold copy_json notify
  try dsimp only
  repeat' split
  all_goals rfl

theorem copy_json_startupPending (s : AppState) :
    (copy_json s).startupPending = s.startupPending := by
  unfold copy_json notify
  try dsimp only
  repeat' split
  all_goals rfl

theorem eraseFirst_length {j : Job} : ∀ {l : List Job}, j ∈ l →
    (eraseFirst l j).length + 1 = l.length := by
  intro l
  induction l with
  | nil => intro h; cases h
  | cons x xs ih =>
    intro h
    unfold eraseFirst
    by_cases hx : x = j
    · rw [if_pos hx]
      rfl
    · rw [if_neg hx]
      rcases List.mem_cons.mp h with h1 | h1
      · exact absurd h1.symm hx
      · simp only [List.length_cons]
        rw [← ih h1]

/-- The controller invariant behind claim C2: never more than two
invocations in flight; never more than one when not busy; never more than
one while the startup timer has not fired, and none at all when the timer
has not fired and the controller is idle. -/
def CtrlInv (s : AppState) : Prop :=
  s.inflight.length ≤ 2 ∧
  (s.busy = false → s.inflight.length ≤ 1) ∧
  (s.startupPending = true →
    s.inflight.length ≤ 1 ∧ (s.busy = false → s.inflight.length = 0))

theorem inv_init : CtrlInv initState := by
  refine ⟨?_, ?_, ?_⟩ <;> simp [initState, CtrlInv]

theorem inv_step (s : AppState) (e : Ev) (h : CtrlInv s) : CtrlInv (step s e) := by
  obtain ⟨h1, h2, h3⟩ := h
  cases e with
  | clickRefresh =>
    simp only [step]
    by_cases hb : s.busy = true
    · rw [if_pos hb]; exact ⟨h1, h2, h3⟩
    · rw [if_neg hb]
      have hb2 : s.busy = false := by simpa using hb
      have hlen := h2 hb2
      refine ⟨?_, ?_, ?_⟩
      · show (s.inflight ++ [Job.query]).length ≤ 2
        simp only [List.length_append, List.length_cons, List.length_nil]
        omega
      · intro hb3
        exact Bool.noConfusion hb3
      · intro hp
        have hp2 : s.startupPending = true := hp
        have h0 := (h3 hp2).2 hb2
        refine ⟨?_, ?_⟩
        · show (s.inflight ++ [Job.query]).length ≤ 1
          simp only [List.length_append, List.length_cons, List.length_nil]
          omega
        · intro hb3
          exact Bool.noConfusion hb3
  | clickRun =>
    simp only [step]
    by_cases hb : s.busy = true
    · rw [if_pos hb]; exact ⟨h1, h2, h3⟩
    · rw [if_neg hb]
      have hb2 : s.busy = false := by simpa using hb
      have hlen := h2 hb2
      refine ⟨?_, ?_, ?_⟩
      · show (s.inflight ++ [Job.assessment]).length ≤ 2
        simp only [List.length_append, List.length_cons, List.length_nil]
        omega
      · intro hb3
        exact Bool.noConfusion hb3
      · intro hp
        have hp2 : s.startupPending = true := hp
        have h0 := (h3 hp2).2 hb2
        refine ⟨?_, ?_⟩
        · show (s.inflight ++ [Job.assessment]).length ≤ 1
          simp only [List.length_append, List.length_cons, List.length_nil]
          omega
        · intro hb3
          exact Bool.noConfusion hb3
  | clickCopy =>
    simp only [step]
    by_cases hb : s.busy = true
    · rw [if_pos hb]; exact ⟨h1, h2, h3⟩
    · rw [if_neg hb]
      have hb2 : s.busy = false := by simpa using hb
      refine ⟨?_, ?_, ?_⟩
      · rw [copy_json_inflight]; exact h1
      · intro _
        rw [copy_json_inflight]
        exact h2 hb2
      · intro hp
        rw [copy_json_startupPending] at hp
        rw [copy_json_inflight]
        exact ⟨(h3 hp).1, fun _ => (h3 hp).2 hb2⟩
  | startupTimer =>
    simp only [step]
    by_cases hp : s.startupPending = true
    · rw [if_pos hp]
      have hlen := (h3 hp).1
      refine ⟨?_, ?_, ?_⟩
      · show (s.inflight ++ [Job.query]).length ≤ 2
        simp only [List.length_append, List.length_cons, List.length_nil]
        omega
      · intro hb3
        exact Bool.noConfusion hb3
      · intro hp2
        exact Bool.noConfusion hp2
    · rw [if_neg hp]; exact ⟨h1, h2, h3⟩
  | queryDone rc out err =>
    simp only [step]
    by_cases hq : Job.query ∈ s.inflight
    · rw [if_pos hq]
      have hlen := eraseFirst_length hq
      refine ⟨?_, ?_, ?_⟩
      · rw [handle_query_result_inflight]
        show (eraseFirst s.inflight Job.query).length ≤ 2
        omega
      · intro _
        rw [handle_query_result_inflight]
        show (eraseFirst s.inflight Job.query).length ≤ 1
        omega
      · intro hp
        rw [handle_query_result_startupPending] at hp
        have hp2 : s.startupPending = true := hp
        have hle := (h3 hp2).1
        rw [handle_query_result_inflight]
        constructor
        · show (eraseFirst s.inflight Job.query).length ≤ 1
          omega
        · intro _
          show (eraseFirst s.inflight Job.query).length = 0
          omega
    · rw [if_neg hq]; exact ⟨h1, h2, h3⟩
  | assessDone rc out err =>
    simp only [step]
    by_cases ha : Job.assessment ∈ s.inflight
    · rw [if_pos ha]
      have hlen := eraseFirst_length ha
      by_cases hrc : rc = 0
      · subst hrc
        refine ⟨?_, ?_, ?_⟩
        · rw [had_ok_inflight]
          simp only [finishJob, List.length_append, List.length_cons, List.length_nil]
          omega
        · intro hb3
          rw [had_ok_busy] at hb3
          cases hb3
        · intro hp
          rw [had_ok_startupPending] at hp
          have hp2 : s.startupPending = true := hp
          have hle := (h3 hp2).1
          constructor
          · rw [had_ok_inflight]
            simp only [finishJob, List.length_append, List.length_cons, List.length_nil]
            omega
          · intro hb3
            rw [had_ok_busy] at hb3
            cases hb3
      · refine ⟨?_, ?_, ?_⟩
        · rw [had_fail_inflight _ _ _ _ hrc]
          show (eraseFirst s.inflight Job.assessment).length ≤ 2
          omega
        · intro _
          rw [had_fail_inflight _ _ _ _ hrc]
          show (eraseFirst s.inflight Job.assessment).length ≤ 1
          omega
        · intro hp
          rw [had_fail_startupPending _ _ _ _ hrc] at hp
          have hp2 : s.startupPending = true := hp
          have hle := (h3 hp2).1
          rw [had_fail_inflight _ _ _ _ hrc]
          constructor
          · show (eraseFirst s.inflight Job.assessment).length ≤ 1
            omega
          · intro _
            show (eraseFirst s.inflight Job.assessment).length = 0
            omega
    · rw [if_neg ha]; exact ⟨h1, h2, h3⟩

theorem inv_foldl (s : AppState) (evs : List Ev) (h : CtrlInv s) :
    CtrlInv (evs.foldl step s) := by
  induction evs generalizing s with
  | nil => exact h
  | cons e es ih => exact ih (step s e) (inv_step s e h)

theorem inv_runApp (evs : List Ev) : CtrlInv (runApp evs) :=
  inv_foldl initState evs inv_init

theorem set_busy_logLines (s : AppState) (b : Bool) (msg : String) :
    (set_busy s b msg).logLines = s.logLines := by
  cases b <;> simp [set_busy] <;> split <;> rfl

theorem set_busy_rawJson (s : AppState) (b : Bool) (msg : String) :
    (set_busy s b msg).rawJson = s.rawJson := by
  cases b <;> simp [set_busy] <;> split <;> rfl

theorem had_ok_status (s : AppState) (out err : String) :
    (handle_assessment_done s 0 out err).status = "Re-querying Win32_WinSAT…" := by
  unfold handle_assessment_done
  rw [if_neg (by omega : ¬ (0 : Int) ≠ 0)]
  try dsimp only
  repeat' split
  all_goals rfl

theorem had_fail_status (s : AppState) (rc : Int) (out err : String) (h : rc ≠ 0) :
    (handle_assessment_done s rc out err).status = "Ready." := by
  unfold handle_assessment_done
  rw [if_pos h]
  try dsimp only
  repeat' split
  all_goals rfl

theorem had_fail_notice (s : AppState) (rc : Int) (out err : String) (h : rc ≠ 0) :
    "WinSAT assessment failed.\nTry running this program from an elevated (Admin) terminal.\nSee log for details."
      ∈ (handle_assessment_done s rc out err).notices := by
  unfold handle_assessment_done
  rw [if_pos h]
  try dsimp only
  repeat' split
  all_goals simp [set_busy_busy, set_busy, notify, logLine]

theorem had_ok_log (s : AppState) (out err : String) (hout : out ≠ "") :
    "WinSAT output:" ∈ (handle_assessment_done s 0 out err).logLines ∧
    out ∈ (handle_assessment_done s 0 out err).logLines := by
  unfold handle_assessment_done
  rw [if_neg (by omega : ¬ (0 : Int) ≠ 0)]
  dsimp only
  rw [if_pos hout]
  by_cases herr : err ≠ ""
  · rw [if_pos herr]
    constructor <;> simp [logLine, set_busy_logLines, List.mem_append]
  · rw [if_neg herr]
    constructor <;> simp [logLine, set_busy_logLines, List.mem_append]

/-- Claim C3: on completion of an in-flight assessment invocation, the
chained query invocation is dispatched if and only if the exit status is 0;
on status 0 the controller stays busy (it never passes through Ready: the
`done` callback runs atomically on the UI thread and dispatches within the
same step in which it logs), and the assessment output has already been
logged in the dispatching state; on a nonzero status no query is
dispatched, the failure notice is shown and the controller returns to
Ready. -/
theorem c3_assessment_chain (s : AppState) (rc : Int) (out err : String)
    (h : Job.assessment ∈ s.inflight) :
    (rc = 0 →
      (step s (Ev.assessDone rc out err)).inflight =
        eraseFirst s.inflight Job.assessment ++ [Job.query] ∧
      (step s (Ev.assessDone rc out err)).busy = true ∧
      (step s (Ev.assessDone rc out err)).status = "Re-querying Win32_WinSAT…" ∧
      (out ≠ "" →
        "WinSAT output:" ∈ (step s (Ev.assessDone rc out err)).logLines ∧
        out ∈ (step s (Ev.assessDone rc out err)).logLines)) ∧
    (rc ≠ 0 →
      (step s (Ev.assessDone rc out err)).inflight =
        eraseFirst s.inflight Job.assessment ∧
      (step s (Ev.assessDone rc out err)).busy = false ∧
      (step s (Ev.assessDone rc out err)).status = "Ready." ∧
      "WinSAT assessment failed.\nTry running this program from an elevated (Admin) terminal.\nSee log for details."
        ∈ (step s (Ev.assessDone rc out err)).notices) := by
  simp only [step]
  rw [if_pos h]
  constructor
  · intro hrc
    subst hrc
    refine ⟨?_, had_ok_busy _ _ _, had_ok_status _ _ _, ?_⟩
    · rw [had_ok_inflight]
      rfl
    · intro hout
      exact had_ok_log _ out err hout
  · intro hrc
    exact ⟨had_fail_inflight _ _ _ _ hrc, had_fail_busy _ _ _ _ hrc,
      had_fail_status _ _ _ _ hrc, had_fail_notice _ _ _ _ hrc⟩

/-- A concrete state with one assessment invocation in flight, used by the
claim C3 witness. -/
def assessState0 : AppState :=
  { busy := true
    status := "Running WinSAT formal…"
    rawJson := Option.none
    logLines := []
    fields := scoreMapping.map (fun p => (p.1, "-"))
    clipboard := Option.none
    notices := []
    inflight := [Job.assessment]
    startupPending := false }

/-- Claim C3, witness: a successful assessment completion from a concrete
busy state chains into exactly one query invocation with the output
logged. -/
theorem c3_witness :
    (step assessState0 (Ev.assessDone 0 "done" "")).inflight = [Job.query] ∧
    (step assessState0 (Ev.assessDone 0 "done" "")).busy = true ∧
    "done" ∈ (step assessState0 (Ev.assessDone 0 "done" "")).logLines := by
  have h := c3_assessment_chain assessState0 0 "done" "" (by decide)
  have h0 := h.1 rfl
  exact ⟨h0.1, h0.2.1, (h0.2.2.2 (by decide)).2⟩

/-- Claim C2 (amended): in every reachable state at most two background
invocations are in flight, and at most one unless the one-shot startup
timer (`after(200, refresh_scores)`, which bypasses the disabled-button
gate) has fired while an operation dispatched within the first 200ms was
already in flight; in particular at most one invocation is in flight
whenever the controller is not busy, or while the startup timer has not yet
fired.  A user trigger (Refresh or Run Assessment) while busy finds its
button disabled, so it dispatches nothing and changes nothing. -/
theorem c2_busy_gate :
    (∀ evs : List Ev,
      (runApp evs).inflight.length ≤ 2 ∧
      ((runApp evs).busy = false → (runApp evs).inflight.length ≤ 1) ∧
      ((runApp evs).startupPending = true → (runApp evs).inflight.length ≤ 1)) ∧
    (∀ s : AppState, s.busy = true →
      step s Ev.clickRefresh = s ∧ step s Ev.clickRun = s) := by
  constructor
  · intro evs
    obtain ⟨a, b, c⟩ := inv_runApp evs
    exact ⟨a, b, fun hp => (c hp).1⟩
  · intro s hb
    constructor <;> simp [step, hb]

/-- Claim C2, counterexample to the claim as stated: clicking Refresh
right after startup and then letting the 200ms startup timer fire is a
reachable trace with two query invocations in flight at once. -/
theorem c2_counterexample :
    (runApp [Ev.clickRefresh, Ev.startupTimer]).inflight.length = 2 ∧
    ¬ (runApp [Ev.clickRefresh, Ev.startupTimer]).inflight.length ≤ 1 := by
  exact ⟨rfl, by decide⟩

/-- Claim C2, witness: the bound holds on a concrete trace, and clicking
Refresh in the concrete busy state it reaches changes nothing. -/
theorem c2_witness :
    (runApp [Ev.clickRefresh]).inflight.length ≤ 2 ∧
    step (runApp [Ev.clickRefresh]) Ev.clickRefresh = runApp [Ev.clickRefresh] := by
  constructor
  · exact (c2_busy_gate.1 [Ev.clickRefresh]).1
  · exact (c2_busy_gate.2 (runApp [Ev.clickRefresh]) rfl).1

theorem hqr_rawJson (s : AppState) (out err : String) (hout : out ≠ "") :
    (handle_query_result s 0 out err).rawJson = some out := by
  unfold handle_query_result
  rw [set_busy_rawJson]
  unfold hqr_try
  rw [if_neg (by omega : ¬ (0 : Int) ≠ 0)]
  dsimp only
  rw [if_neg hout]
  repeat' split
  all_goals rfl

/-- Claim C10: a query completion with exit status 0 and nonempty (trimmed)
output overwrites the stored raw output with that text, whether or not it
parses as JSON (the raw text is stored before `json.loads` runs, and a
parse failure does not restore the previous value), and the Copy action in
the resulting Ready state copies exactly that text to the clipboard. -/
theorem c10_raw_overwrite (s : AppState) (out err : String) (hout : out ≠ "") :
    (handle_query_result s 0 out err).rawJson = some out ∧
    step (handle_query_result s 0 out err) Ev.clickCopy =
      { handle_query_result s 0 out err with
          clipboard := some out, status := "JSON copied to clipboard." } := by
  have hraw := hqr_rawJson s out err hout
  refine ⟨hraw, ?_⟩
  simp only [step]
  rw [if_neg (fun hb => Bool.noConfusion
    ((handle_query_result_busy s 0 out err) ▸ hb))]
  unfold copy_json
  rw [hraw]
  dsimp only
  rw [if_neg hout]

/-- Claim C10, witness: a completion carrying unparseable text stores and
then copies exactly that text. -/
theorem c10_witness :
    (handle_query_result initState 0 "not json" "").rawJson = some "not json" ∧
    step (handle_query_result initState 0 "not json" "") Ev.clickCopy =
      { handle_query_result initState 0 "not json" "" with
          clipboard := some "not json", status := "JSON copied to clipboard." } :=
  c10_raw_overwrite initState "not json" "" (by decide)

/-- Claim C8 (amended): the Copy action is available whenever the
controller is Ready and raw successful output is held (it then copies that
output and only touches the clipboard and the status line); while Busy all
three buttons are disabled, so invoking Copy has no effect at all; when
Ready with no output held it shows a notice and changes nothing else; in
every case the busy state and the in-flight invocations are unchanged. -/
theorem c8_copy_action (s : AppState) :
    (s.busy = true → step s Ev.clickCopy = s) ∧
    (∀ t : String, s.busy = false → s.rawJson = some t → t ≠ "" →
      step s Ev.clickCopy =
        { s with clipboard := some t, status := "JSON copied to clipboard." }) ∧
    (s.busy = false → s.rawJson = Option.none →
      step s Ev.clickCopy = notify s "No JSON available yet. Click Refresh first.") ∧
    (step s Ev.clickCopy).busy = s.busy ∧
    (step s Ev.clickCopy).inflight = s.inflight := by
  refine ⟨?_, ?_, ?_, ?_, ?_⟩
  · intro hb
    simp [step, hb]
  · intro t hb hraw ht
    simp only [step]
    rw [if_neg (fun h2 => Bool.noConfusion (hb ▸ h2))]
    unfold copy_json
    rw [hraw]
    dsimp only
    rw [if_neg ht]
  · intro hb hraw
    simp only [step]
    rw [if_neg (fun h2 => Bool.noConfusion (hb ▸ h2))]
    unfold copy_json
    rw [hraw]
  · simp only [step]
    by_cases hb : s.busy = true
    · rw [if_pos hb]
    · rw [if_neg hb]
      rw [copy_json_busy]
  · simp only [step]
    by_cases hb : s.busy = true
    · rw [if_pos hb]
    · rw [if_neg hb]
      rw [copy_json_inflight]

/-- A reachable state that is Busy while raw successful output is held:
the startup refresh succeeds, then Run Assessment is clicked. -/
def busyWithRaw : AppState :=
  runApp [Ev.startupTimer,
    Ev.queryDone 0 "\x7b\"CPUScore\": 1\x7d" "",
    Ev.clickRun]

/-- Claim C8, counterexample to the claim as stated: in the reachable Busy
state `busyWithRaw`, raw successful output exists in memory, yet invoking
the Copy action does nothing at all (the button is disabled), so the action
is not available at that time. -/
theorem c8_counterexample :
    busyWithRaw.busy = true ∧
    busyWithRaw.rawJson = some "\x7b\"CPUScore\": 1\x7d" ∧
    step busyWithRaw Ev.clickCopy = busyWithRaw ∧
    busyWithRaw.clipboard = Option.none :=
  ⟨rfl, rfl, rfl, rfl⟩

/-- Claim C8, witness: in the Ready state after the same successful query,
Copy copies the held output and leaves busy state and in-flight list
unchanged. -/
theorem c8_witness :
    step (runApp [Ev.startupTimer, Ev.queryDone 0 "\x7b\"CPUScore\": 1\x7d" ""])
        Ev.clickCopy =
      { runApp [Ev.startupTimer, Ev.queryDone 0 "\x7b\"CPUScore\": 1\x7d" ""] with
          clipboard := some "\x7b\"CPUScore\": 1\x7d",
          status := "JSON copied to clipboard." } :=
  (c8_copy_action (runApp [Ev.startupTimer, Ev.queryDone 0 "\x7b\"CPUScore\": 1\x7d" ""])).2.1
    "\x7b\"CPUScore\": 1\x7d" rfl rfl (by decide)
